import Mathlib

/-!
Shallow embedding of the kx-iqcaptcha core: the per-subject authentication
record engine (`AuthRecord`, `CaptchaAuthr` in `captcha-authr.js` /
`AuthRecord.js`) and the demand-adaptive production queue (`CaptchaMgr` in
the main module) together with the worker protocol (`provider-job.js`).

Modelling conventions: JavaScript numbers that hold counters are embedded as
`Rat` (the penalties are fractional, e.g. `0.5`); timestamps and durations
are `Int` milliseconds, and every method that reads `Date.now()` takes an
explicit `now` parameter (one `now` per call).  A JavaScript exception is an
`Except.error`; the asynchronous provider call `provider.popCaptcha()`
inside one `tryAuth` evaluation is an oracle parameter
`prov : Except String Captcha` (at most one provider call happens per
`tryAuth` path).  The `Map` of records is an insertion-ordered association
list.  The pluggable checker/challenger functions are embedded with their
default implementations from the `AuthRecord` constructor.
-/

namespace IQC

/-- One CAPTCHA instance, as resolved by the generator: `choices` (letter
options), `answer` (two-letter string), `data` (Base64 image). -/
structure Captcha where
  choices : List String
  answer : String
  data : String
deriving DecidableEq, Repr

/-- The `authPreferences` object assembled in the `CaptchaAuthr`
constructor (the provider reference is kept separately as the oracle). -/
structure AuthPreferences where
  maxWrong : Rat
  dropWrongAfter : Int
  requiredAnswers : Rat
  resetOnWrong : Bool
  answerTimeout : Int
  onRegenWrong : Rat
  wrongOnTooLong : Rat
  tooFast : Int
  authTimeout : Int
deriving DecidableEq, Repr

/-- The default `authPreferences` from the `CaptchaAuthr` constructor. -/
def defaultAuthPreferences : AuthPreferences where
  maxWrong := 3
  dropWrongAfter := 10000
  requiredAnswers := 1
  resetOnWrong := true
  answerTimeout := 60000
  onRegenWrong := 1/2
  wrongOnTooLong := 1/2
  tooFast := 1000
  authTimeout := 1000 * 60 * 30

/-- Mutable state of one subject's `AuthRecord` (fields `_authd`, `_wrong`,
`_correct`, `lastLimitTime`, `lastDownloadTime`, `lastAuthTime`, `captcha`).
`captcha` is `none` until `genCaptcha` first succeeds (in JS the property is
`undefined` then). -/
structure AuthRecord where
  authd : Bool
  wrong : Rat
  correct : Rat
  lastLimitTime : Int
  lastDownloadTime : Int
  lastAuthTime : Int
  captcha : Option Captcha
deriving DecidableEq, Repr

/-- The `AuthRecord` constructor body (preferences are threaded separately;
`lastDownloadTime` is initialised to `Date.now()`). -/
def AuthRecord.mk0 (now : Int) : AuthRecord where
  authd := false
  wrong := 0
  correct := 0
  lastLimitTime := 0
  lastDownloadTime := now
  lastAuthTime := 0
  captcha := none

/-- Insertion into a sorted character list, the auxiliary of `sortChars`. -/
def insertChar (c : Char) : List Char → List Char
  | [] => [c]
  | d :: ds => if c ≤ d then c :: d :: ds else d :: insertChar c ds

/-- Sorting a character list, embedding JavaScript `Array.prototype.sort()`
on single-character strings (code-unit order). -/
def sortChars : List Char → List Char
  | [] => []
  | c :: cs => insertChar c (sortChars cs)

/-- The default answer checker from the `AuthRecord` constructor:
`String(a).toLowerCase().split('').sort().join('') === String(b)...`
(lower-casing a string and then splitting it into characters is the same
as splitting and lower-casing each character). -/
def defaultChecker (a b : String) : Bool :=
  sortChars (a.toList.map Char.toLower) =
    sortChars (b.toList.map Char.toLower)

/-- `AuthRecord.prototype.expired`:
`lastAuthTime !== 0 && Date.now() - lastAuthTime > authTimeout`. -/
def AuthRecord.expired (p : AuthPreferences) (now : Int) (r : AuthRecord) : Bool :=
  r.lastAuthTime ≠ 0 ∧ now - r.lastAuthTime > p.authTimeout

/-- `AuthRecord.prototype.isLimited`: `_wrong > maxWrong`. -/
def AuthRecord.isLimited (p : AuthPreferences) (r : AuthRecord) : Bool :=
  r.wrong > p.maxWrong

/-- `AuthRecord.prototype._authenticate`: sets `_authd` and stamps
`lastAuthTime` only on the transition to authenticated. -/
def AuthRecord.authenticate (now : Int) (r : AuthRecord) : AuthRecord :=
  if r.authd then r else { r with authd := true, lastAuthTime := now }

/-- The `correct` setter: stores the value, then authenticates when the new
count reaches `requiredAnswers`. -/
def AuthRecord.setCorrect (p : AuthPreferences) (now : Int) (r : AuthRecord)
    (v : Rat) : AuthRecord :=
  let r1 := { r with correct := v }
  if r1.correct ≥ p.requiredAnswers then r1.authenticate now else r1

/-- The `wrong` setter: a no-op while limited; otherwise stores the value
and stamps `lastLimitTime` exactly when the assignment crosses the limit. -/
def AuthRecord.setWrong (p : AuthPreferences) (now : Int) (r : AuthRecord)
    (v : Rat) : AuthRecord :=
  if r.isLimited p then r
  else
    let r1 := { r with wrong := v }
    if r1.isLimited p then { r1 with lastLimitTime := now } else r1

/-- `AuthRecord.prototype.tryDroppingWrong`: while limited and past the
cooldown, reset `_wrong` to 0 and refresh `lastDownloadTime`. -/
def AuthRecord.tryDroppingWrong (p : AuthPreferences) (now : Int)
    (r : AuthRecord) : AuthRecord :=
  if r.isLimited p ∧ now - r.lastLimitTime > p.dropWrongAfter then
    { r with wrong := 0, lastDownloadTime := now }
  else r

/-- `AuthRecord.prototype.tookTooLong`:
`Date.now() - lastDownloadTime > answerTimeout`. -/
def AuthRecord.tookTooLong (p : AuthPreferences) (now : Int)
    (r : AuthRecord) : Bool :=
  now - r.lastDownloadTime > p.answerTimeout

/-- `AuthRecord.prototype.wasTooFast`:
`Date.now() - lastDownloadTime < tooFast`. -/
def AuthRecord.wasTooFast (p : AuthPreferences) (now : Int)
    (r : AuthRecord) : Bool :=
  now - r.lastDownloadTime < p.tooFast

/-- `AuthRecord.prototype.genCaptcha`: awaits the provider (the oracle
`prov`); on success stores the captcha and stamps `lastDownloadTime`; a
provider rejection propagates as an exception. -/
def AuthRecord.genCaptcha (now : Int) (prov : Except String Captcha)
    (r : AuthRecord) : Except String AuthRecord :=
  match prov with
  | .ok c => .ok { r with captcha := some c, lastDownloadTime := now }
  | .error e => .error e

/-- `AuthRecord.prototype.checkAnswer` with the default checker; reading
`this.captcha.answer` on a record with no captcha is a TypeError. -/
def AuthRecord.checkAnswer (r : AuthRecord) (ans : String) :
    Except String Bool :=
  match r.captcha with
  | some c => .ok (defaultChecker ans c.answer)
  | none => .error "TypeError: captcha is undefined"

/-- `AuthRecord.prototype.getChallenge` with the default challenger
`captcha => captcha.data`. -/
def AuthRecord.getChallenge (r : AuthRecord) : Except String String :=
  match r.captcha with
  | some c => .ok c.data
  | none => .error "TypeError: captcha is undefined"

/-- The object returned by `AuthRecord.prototype.getInfo`. -/
structure RecordInfo where
  required : Rat
  wrong : Rat
  maxWrong : Rat
  correct : Rat
  resets : Bool
  dropAfter : Int
  timeout : Int
  time : Int
  lastDownloadTime : Int
  lastLimitTime : Int
  onRegenWrong : Rat
  lastAuthTime : Int
deriving DecidableEq, Repr

/-- `AuthRecord.prototype.getInfo`. -/
def AuthRecord.getInfo (p : AuthPreferences) (now : Int) (r : AuthRecord) :
    RecordInfo where
  required := p.requiredAnswers
  wrong := r.wrong
  maxWrong := p.maxWrong
  correct := r.correct
  resets := p.resetOnWrong
  dropAfter := p.dropWrongAfter
  timeout := p.answerTimeout
  time := now
  lastDownloadTime := r.lastDownloadTime
  lastLimitTime := r.lastLimitTime
  onRegenWrong := p.onRegenWrong
  lastAuthTime := r.lastAuthTime

/-- The nested object of a `tryAuth` result: `{state, info, challenge?}`
(`challenge` only when `_genReturnValue` is called with `withQ`; the
catch-all error result `{state: 'error'}` carries neither). -/
structure CaptchaState where
  state : String
  challenge : Option String
  info : Option RecordInfo
deriving DecidableEq, Repr

/-- The outer `tryAuth` result object `{captcha: ...}`. -/
structure AuthResult where
  captcha : CaptchaState
deriving DecidableEq, Repr

/-- `CaptchaAuthr.prototype.authSucceeded`:
`stateVal.captcha.state === 'success'`. -/
def authSucceeded (v : AuthResult) : Bool :=
  v.captcha.state = "success"

/-- State of a `CaptchaAuthr` instance: the subject map (insertion-ordered,
as a JavaScript `Map`), `lastOldCheck`, and the merged preferences. -/
structure CaptchaAuthr where
  map : List (String × AuthRecord)
  lastOldCheck : Int
  prefs : AuthPreferences
deriving DecidableEq, Repr

/-- `this.getRecord = id => this.map.get(id)`. -/
def CaptchaAuthr.getRecord (a : CaptchaAuthr) (id : String) :
    Option AuthRecord :=
  List.lookup id a.map

/-- `Map.prototype.set`: replace in place when the key exists (keeping
insertion order), otherwise append. -/
def mapSet (m : List (String × AuthRecord)) (id : String) (r : AuthRecord) :
    List (String × AuthRecord) :=
  if (List.lookup id m).isSome then
    m.map (fun e => if e.1 = id then (id, r) else e)
  else m ++ [(id, r)]

/-- `CaptchaAuthr.prototype.deAuth`: `this.map.delete(id)`. -/
def CaptchaAuthr.deAuth (a : CaptchaAuthr) (id : String) : CaptchaAuthr :=
  { a with map := a.map.filter (fun e => e.1 ≠ id) }

/-- `CaptchaAuthr.prototype._delOld`: at most once per `authTimeout`,
sweep and delete every expired record. -/
def CaptchaAuthr.delOld (a : CaptchaAuthr) (now : Int) : CaptchaAuthr :=
  if now - a.lastOldCheck > a.prefs.authTimeout then
    { a with lastOldCheck := now
             map := a.map.filter (fun e => ¬ (e.2.expired a.prefs now)) }
  else a

/-- `this._genReturnValue(record, state, withQ)`: builds `{captcha:
{state, info, challenge?}}`; fetching the challenge can throw when the
record has no captcha. -/
def genReturnValue (p : AuthPreferences) (now : Int) (r : AuthRecord)
    (state : String) (withQ : Bool) : Except String AuthResult :=
  if withQ then
    match r.getChallenge with
    | .ok ch => .ok ⟨⟨state, some ch, some (r.getInfo p now)⟩⟩
    | .error e => .error e
  else .ok ⟨⟨state, none, some (r.getInfo p now)⟩⟩

/-- `CaptchaAuthr.prototype._handleNew`.  A brand-new record is inserted
into the map only after its `genCaptcha` succeeds; for an existing limited
record a cooldown drop is attempted and, when it unlimits, a fresh captcha
is generated; the state reported is always "new". -/
def CaptchaAuthr.handleNew (a : CaptchaAuthr) (now : Int)
    (prov : Except String Captcha) (id : String) :
    CaptchaAuthr × Except String AuthResult :=
  match a.getRecord id with
  | none =>
    let r0 := AuthRecord.mk0 now
    match r0.genCaptcha now prov with
    | .ok r1 =>
      ({ a with map := mapSet a.map id r1 },
       genReturnValue a.prefs now r1 "new" true)
    | .error e => (a, .error e)
  | some r =>
    if r.isLimited a.prefs then
      let r1 := r.tryDroppingWrong a.prefs now
      if r1.isLimited a.prefs then
        ({ a with map := mapSet a.map id r1 },
         genReturnValue a.prefs now r1 "new" true)
      else
        match r1.genCaptcha now prov with
        | .ok r2 =>
          ({ a with map := mapSet a.map id r2 },
           genReturnValue a.prefs now r2 "new" true)
        | .error e => ({ a with map := mapSet a.map id r1 }, .error e)
    else
      ({ a with map := mapSet a.map id r },
       genReturnValue a.prefs now r "new" true)

/-- `CaptchaAuthr.prototype._handleRegen`: apply the `onRegenWrong`
penalty through the `wrong` setter, attempt a cooldown drop, then either
report "limit" or issue a fresh challenge and report "new". -/
def CaptchaAuthr.handleRegen (a : CaptchaAuthr) (now : Int)
    (prov : Except String Captcha) (id : String) :
    CaptchaAuthr × Except String AuthResult :=
  match a.getRecord id with
  | some r =>
    let r1 := r.setWrong a.prefs now (r.wrong + a.prefs.onRegenWrong)
    let r2 := r1.tryDroppingWrong a.prefs now
    if r2.isLimited a.prefs then
      ({ a with map := mapSet a.map id r2 },
       genReturnValue a.prefs now r2 "limit" false)
    else
      match r2.genCaptcha now prov with
      | .ok r3 =>
        ({ a with map := mapSet a.map id r3 },
         genReturnValue a.prefs now r3 "new" true)
      | .error e => ({ a with map := mapSet a.map id r2 }, .error e)
  | none => a.handleNew now prov id

/-- `CaptchaAuthr.prototype._handleAnswer`: the ordered policy cascade for
a non-empty answer — regen, limited (with cooldown drop), took-too-long
penalty, correct-and-not-too-fast, and the wrong branch. -/
def CaptchaAuthr.handleAnswer (a : CaptchaAuthr) (now : Int)
    (prov : Except String Captcha) (id ans : String) :
    CaptchaAuthr × Except String AuthResult :=
  if ans = "regen" then a.handleRegen now prov id
  else
    match a.getRecord id with
    | some r =>
      if r.isLimited a.prefs then
        let r1 := r.tryDroppingWrong a.prefs now
        if r1.isLimited a.prefs then
          ({ a with map := mapSet a.map id r1 },
           genReturnValue a.prefs now r1 "limit" false)
        else
          match r1.genCaptcha now prov with
          | .ok r2 =>
            ({ a with map := mapSet a.map id r2 },
             genReturnValue a.prefs now r2 "new" true)
          | .error e => ({ a with map := mapSet a.map id r1 }, .error e)
      else if r.tookTooLong a.prefs now then
        let r1 := r.setWrong a.prefs now (r.wrong + a.prefs.wrongOnTooLong)
        if r1.isLimited a.prefs then
          ({ a with map := mapSet a.map id r1 },
           genReturnValue a.prefs now r1 "limit" false)
        else
          match r1.genCaptcha now prov with
          | .ok r2 =>
            ({ a with map := mapSet a.map id r2 },
             genReturnValue a.prefs now r2 "timeout" true)
          | .error e => ({ a with map := mapSet a.map id r1 }, .error e)
      else
        match r.checkAnswer ans with
        | .error e => ({ a with map := mapSet a.map id r }, .error e)
        | .ok chk =>
          if chk ∧ ¬ (r.wasTooFast a.prefs now) then
            let r1 := r.setCorrect a.prefs now (r.correct + 1)
            if r1.authd then
              ({ a with map := mapSet a.map id r1 },
               genReturnValue a.prefs now r1 "success" false)
            else
              match r1.genCaptcha now prov with
              | .ok r2 =>
                ({ a with map := mapSet a.map id r2 },
                 genReturnValue a.prefs now r2 "more" true)
              | .error e => ({ a with map := mapSet a.map id r1 }, .error e)
          else
            let r1 := r.setWrong a.prefs now (r.wrong + 1)
            let r2 := if a.prefs.resetOnWrong
                      then r1.setCorrect a.prefs now 0 else r1
            if r2.isLimited a.prefs then
              ({ a with map := mapSet a.map id r2 },
               genReturnValue a.prefs now r2 "limit" false)
            else
              match r2.genCaptcha now prov with
              | .ok r3 =>
                ({ a with map := mapSet a.map id r3 },
                 genReturnValue a.prefs now r3 "wrong" true)
              | .error e => ({ a with map := mapSet a.map id r2 }, .error e)
    | none => a.handleNew now prov id

/-- Dispatch at the end of `tryAuth`: regen request, falsy answer, or a
real answer (`_regenRequested` is `ans == 'regen'`; a falsy string is the
empty string). -/
def CaptchaAuthr.dispatch (a : CaptchaAuthr) (now : Int)
    (prov : Except String Captcha) (id ans : String) :
    CaptchaAuthr × Except String AuthResult :=
  if ans = "regen" then a.handleRegen now prov id
  else if ans = "" then a.handleNew now prov id
  else a.handleAnswer now prov id ans

/-- The body of the `try` block of `tryAuth`: drop the record when it
expired, short-circuit to "success" when it is authenticated, otherwise
dispatch on the answer. -/
def CaptchaAuthr.tryAuthBody (a : CaptchaAuthr) (now : Int)
    (prov : Except String Captcha) (id ans : String) :
    CaptchaAuthr × Except String AuthResult :=
  let a1 := match a.getRecord id with
            | some r => if r.expired a.prefs now then a.deAuth id else a
            | none => a
  match a1.getRecord id with
  | some r =>
    if r.authd then (a1, genReturnValue a1.prefs now r "success" false)
    else a1.dispatch now prov id ans
  | none => a1.dispatch now prov id ans

/-- `CaptchaAuthr.prototype.tryAuth`: runs `_delOld`, evaluates the
cascade inside `try`, and converts any exception into
`{captcha: {state: 'error'}}` — the function is total, so in the model a
call never throws to its caller. -/
def CaptchaAuthr.tryAuth (a : CaptchaAuthr) (now : Int)
    (prov : Except String Captcha) (id ans : String) :
    CaptchaAuthr × AuthResult :=
  match (a.delOld now).tryAuthBody now prov id ans with
  | (a2, .ok res) => (a2, res)
  | (a2, .error _) => (a2, ⟨⟨"error", none, none⟩⟩)

/-- State of a `CaptchaMgr` instance: target capacity, in-flight counter
`_pendingCaptchas`, the ready FIFO `_readyQue`, the parked-consumer FIFO
`_awaitingQue` (consumers are abstract tokens standing for the stored
resolve functions), and the relevant configuration flags. -/
structure CaptchaMgr where
  capacity : Int
  pendingCaptchas : Int
  readyQue : List Captcha
  awaitingQue : List Nat
  capacityDynamic : Bool
  capacityCutbackMinPercentage : Rat
  forks : Bool
deriving DecidableEq, Repr

/-- Outcome of one `popCaptcha` call: an immediately resolved captcha, or
a parked (still pending) promise. -/
inductive PopResult where
  | immediate (c : Captcha)
  | parked
deriving DecidableEq, Repr

/-- The inner `_tryGettingCaptcha` closure of `popCaptcha`: first the
demand signal (`readyQue.length <= 2 && capacityDynamic` increments
capacity), then a dequeue only when nobody is already awaiting and the
ready queue is non-empty. -/
def CaptchaMgr.tryGettingCaptcha (m : CaptchaMgr) :
    Option Captcha × CaptchaMgr :=
  let m1 := if m.readyQue.length ≤ 2 ∧ m.capacityDynamic
            then { m with capacity := m.capacity + 1 } else m
  if m1.awaitingQue.length = 0 ∧ m1.readyQue.length > 0 then
    match m1.readyQue with
    | c :: rest => (some c, { m1 with readyQue := rest })
    | [] => (none, m1)
  else (none, m1)

/-- `CaptchaMgr.prototype.popCaptcha`: resolve immediately from the ready
queue when possible, otherwise push the caller's resolve function (token
`tok`) onto `_awaitingQue`. -/
def CaptchaMgr.popCaptcha (m : CaptchaMgr) (tok : Nat) :
    PopResult × CaptchaMgr :=
  match m.tryGettingCaptcha with
  | (some c, m1) => (.immediate c, m1)
  | (none, m1) =>
    (.parked, { m1 with awaitingQue := m1.awaitingQue ++ [tok] })

/-- The module-level `_onCreated`: a finished production settles the
oldest awaiting consumer when one exists (returned as `some token`),
otherwise appends the captcha to the ready queue. -/
def onCreated (m : CaptchaMgr) (res : Captcha) : CaptchaMgr × Option Nat :=
  match m.awaitingQue with
  | t :: rest => ({ m with awaitingQue := rest }, some t)
  | [] => ({ m with readyQue := m.readyQue ++ [res] }, none)

/-- `CaptchaMgr.prototype._createCaptcha` in direct (non-fork) mode:
increment `_pendingCaptchas`, await the generator; on success run
`_onCreated` and decrement the counter; a rejection is only logged by the
`catch` — the decrement inside the `try` is skipped. -/
def CaptchaMgr.createCaptchaDirect (m : CaptchaMgr)
    (gen : Except String Captcha) : CaptchaMgr :=
  let m1 := { m with pendingCaptchas := m.pendingCaptchas + 1 }
  match gen with
  | .ok c =>
    let m2 := (onCreated m1 c).1
    { m2 with pendingCaptchas := m2.pendingCaptchas - 1 }
  | .error _ => m1

/-- `CaptchaMgr.prototype._createCaptcha` in fork mode: increment
`_pendingCaptchas` and send the production-request message
(`this._providerJob.send('provide')`); the returned string is the exact
message put on the channel. -/
def CaptchaMgr.createCaptchaFork (m : CaptchaMgr) : CaptchaMgr × String :=
  ({ m with pendingCaptchas := m.pendingCaptchas + 1 }, "provide")

/-- A message from the worker back to the queue: `provider-job.js` sends
the generator result object itself on success, or `{err}` on failure. -/
inductive WorkerReply where
  | result (c : Captcha)
  | err (e : String)
deriving DecidableEq, Repr

/-- The `process.on('message')` handler of `provider-job.js`: only the
exact message "provide" triggers a production; the reply is the created
captcha itself or an `{err}` object; any other message is ignored. -/
def providerJob (msg : String) (gen : Except String Captcha) :
    Option WorkerReply :=
  if msg = "provide" then
    some (match gen with
          | .ok c => .result c
          | .error e => .err e)
  else none

/-- The `this._providerJob.on('message')` handler installed by `begin()`:
an `{err}` reply is logged, a success reply is dispatched through
`_onCreated`; in both cases `_pendingCaptchas` is decremented. -/
def CaptchaMgr.onWorkerReply (m : CaptchaMgr) (data : WorkerReply) :
    CaptchaMgr × Option Nat :=
  match data with
  | .err _ => ({ m with pendingCaptchas := m.pendingCaptchas - 1 }, none)
  | .result c =>
    let m1 := onCreated m c
    ({ m1.1 with pendingCaptchas := m1.1.pendingCaptchas - 1 }, m1.2)

/-- One firing of the capacity-cutback interval installed by `begin()`:
decrement capacity only when it exceeds 2 and the ready/capacity ratio
exceeds `_capacityCutbackMinPercentage`. -/
def CaptchaMgr.cutbackTick (m : CaptchaMgr) : CaptchaMgr :=
  if m.capacity > 2 ∧
      (m.readyQue.length : Rat) / (m.capacity : Rat) >
        m.capacityCutbackMinPercentage then
    { m with capacity := m.capacity - 1 }
  else m

/-- One queue-state transition: any of the embedded `CaptchaMgr`
operations firing once (a pop, a completed or failed production in either
mode, a worker reply, or a cutback tick). -/
inductive MgrStep : CaptchaMgr → CaptchaMgr → Prop
  | pop (m : CaptchaMgr) (tok : Nat) : MgrStep m (m.popCaptcha tok).2
  | created (m : CaptchaMgr) (c : Captcha) : MgrStep m (onCreated m c).1
  | direct (m : CaptchaMgr) (gen : Except String Captcha) :
      MgrStep m (m.createCaptchaDirect gen)
  | forkSend (m : CaptchaMgr) : MgrStep m m.createCaptchaFork.1
  | reply (m : CaptchaMgr) (d : WorkerReply) :
      MgrStep m (m.onWorkerReply d).1
  | cutback (m : CaptchaMgr) : MgrStep m m.cutbackTick

/-! Concrete sample values used by witnesses and counterexamples. -/

/-- A sample captcha. -/
def exCaptcha1 : Captcha := ⟨["A", "B"], "AB", "img1"⟩

/-- A second sample captcha. -/
def exCaptcha2 : Captcha := ⟨["C", "D"], "CD", "img2"⟩

/-- A third sample captcha. -/
def exCaptcha3 : Captcha := ⟨["E", "F"], "EF", "img3"⟩

/-- A queue with three ready captchas, no parked consumer, dynamic
capacity, default cutback percentage, direct mode. -/
def exMgr3 : CaptchaMgr := ⟨3, 0, [exCaptcha1, exCaptcha2, exCaptcha3], [], true, 9/10, false⟩

/-- An empty direct-mode queue with dynamic capacity. -/
def exMgr0 : CaptchaMgr := ⟨3, 0, [], [], true, 9/10, false⟩

/-- An authenticated record used by witnesses. -/
def exRecordAuthd : AuthRecord := ⟨true, 0, 1, 0, 0, 5, some exCaptcha1⟩

/-- An authr holding the authenticated record. -/
def exAuthr : CaptchaAuthr := ⟨[("u", exRecordAuthd)], 0, defaultAuthPreferences⟩

/-- A fresh, never-authenticated record holding `exCaptcha1`, issued at
time 0, used by witnesses. -/
def exRecordFresh : AuthRecord := ⟨false, 0, 0, 0, 0, 0, some exCaptcha1⟩

/-- Folding a list of `(now, provider result, id, answer)` calls through
`tryAuth`, collecting the returned results in order. -/
def runAuthCalls (a : CaptchaAuthr) :
    List (Int × Except String Captcha × String × String) →
    CaptchaAuthr × List AuthResult
  | [] => (a, [])
  | (now, prov, id, ans) :: rest =>
    let s := a.tryAuth now prov id ans
    let t := runAuthCalls s.1 rest
    (t.1, s.2 :: t.2)

/-- Auxiliary: the capacity after a `popCaptcha` call is the old capacity,
incremented exactly when the pre-pop ready length is at most 2 and the
dynamic flag is on. -/
lemma pop_capacity_eq (m : CaptchaMgr) (tok : Nat) :
    (m.popCaptcha tok).2.capacity =
      if m.readyQue.length ≤ 2 ∧ m.capacityDynamic
      then m.capacity + 1 else m.capacity := by
  obtain ⟨cap, pend, rq, aq, dyn, pct, fk⟩ := m
  unfold CaptchaMgr.popCaptcha CaptchaMgr.tryGettingCaptcha
  cases dyn <;> cases aq <;> cases rq <;>
    simp only [List.length_nil, List.length_cons] <;>
    split_ifs <;> simp_all

/-- Auxiliary: `_onCreated` never changes the capacity. -/
lemma onCreated_capacity (m : CaptchaMgr) (c : Captcha) :
    (onCreated m c).1.capacity = m.capacity := by
  unfold onCreated
  cases haq : m.awaitingQue <;> rfl

/-- Auxiliary: a direct-mode production attempt never changes capacity. -/
lemma createCaptchaDirect_capacity (m : CaptchaMgr)
    (gen : Except String Captcha) :
    (m.createCaptchaDirect gen).capacity = m.capacity := by
  unfold CaptchaMgr.createCaptchaDirect
  cases gen with
  | ok c =>
    show ((onCreated { m with pendingCaptchas := m.pendingCaptchas + 1 } c).1).capacity = m.capacity
    rw [onCreated_capacity]
  | error e => rfl

/-- Auxiliary: handling a worker reply never changes capacity. -/
lemma onWorkerReply_capacity (m : CaptchaMgr) (d : WorkerReply) :
    (m.onWorkerReply d).1.capacity = m.capacity := by
  unfold CaptchaMgr.onWorkerReply
  cases d with
  | err e => rfl
  | result c =>
    show (onCreated m c).1.capacity = m.capacity
    rw [onCreated_capacity]

/-- Auxiliary: a `MgrStep` never lowers `capacity` below 2 when it starts
at 2 or more. -/
lemma mgrStep_capacity_floor {m m' : CaptchaMgr} (h : MgrStep m m')
    (h2 : 2 ≤ m.capacity) : 2 ≤ m'.capacity := by
  cases h with
  | pop tok =>
    rw [pop_capacity_eq]
    split <;> omega
  | created c => rw [onCreated_capacity]; exact h2
  | direct gen => rw [createCaptchaDirect_capacity]; exact h2
  | forkSend => exact h2
  | reply d => rw [onWorkerReply_capacity]; exact h2
  | cutback =>
    unfold CaptchaMgr.cutbackTick
    split
    · rename_i hg
      obtain ⟨hg1, _⟩ := hg
      show 2 ≤ m.capacity - 1
      omega
    · exact h2

/-- C5: the periodic cutback decrements `capacity` exactly when
`capacity > 2` and the ready/capacity ratio exceeds the threshold, and any
sequence of queue steps keeps `capacity ≥ 2` once it is at least 2. -/
theorem cutback_guard_and_capacity_floor :
    (∀ m : CaptchaMgr,
      (m.cutbackTick.capacity = m.capacity - 1 ↔
        (m.capacity > 2 ∧
          (m.readyQue.length : Rat) / (m.capacity : Rat) >
            m.capacityCutbackMinPercentage)))
    ∧ (∀ m m' : CaptchaMgr, Relation.ReflTransGen MgrStep m m' →
        2 ≤ m.capacity → 2 ≤ m'.capacity) := by
  constructor
  · intro m
    constructor
    · intro h
      unfold CaptchaMgr.cutbackTick at h
      split at h
      · assumption
      · omega
    · intro h
      unfold CaptchaMgr.cutbackTick
      rw [if_pos h]
  · intro m m' h h2
    induction h with
    | refl => exact h2
    | tail _ hstep ih => exact mgrStep_capacity_floor hstep ih

/-- C5 witness: the guard characterisation and the floor at a concrete
reachable state (one cutback step from a capacity-3 queue with a full
ready buffer). -/
theorem cutback_guard_and_capacity_floor_witness :
    exMgr3.cutbackTick.capacity = exMgr3.capacity - 1 ∧
    2 ≤ exMgr3.cutbackTick.capacity := by
  have hg : exMgr3.capacity > 2 ∧
      (exMgr3.readyQue.length : Rat) / (exMgr3.capacity : Rat) >
        exMgr3.capacityCutbackMinPercentage := by
    constructor
    · norm_num [exMgr3]
    · norm_num [exMgr3]
  refine ⟨(cutback_guard_and_capacity_floor.1 exMgr3).2 hg, ?_⟩
  exact cutback_guard_and_capacity_floor.2 exMgr3 exMgr3.cutbackTick
    (Relation.ReflTransGen.single (MgrStep.cutback exMgr3)) (by norm_num [exMgr3])

/-- C3: `popCaptcha` resolves immediately exactly when the ready queue is
non-empty and nobody is parked (then it dequeues the head); otherwise the
caller is appended to the parked FIFO; a completed production settles the
oldest parked consumer, and only fills the ready queue when nobody is
parked. -/
theorem popCaptcha_immediate_iff_and_fifo :
    ∀ (m : CaptchaMgr) (tok : Nat),
      ((∃ c, (m.popCaptcha tok).1 = PopResult.immediate c) ↔
        (m.readyQue ≠ [] ∧ m.awaitingQue = []))
      ∧ (∀ c rest, m.awaitingQue = [] → m.readyQue = c :: rest →
          (m.popCaptcha tok).1 = PopResult.immediate c ∧
          (m.popCaptcha tok).2.readyQue = rest)
      ∧ ((m.popCaptcha tok).1 = PopResult.parked →
          (m.popCaptcha tok).2.awaitingQue = m.awaitingQue ++ [tok])
      ∧ (∀ t rest c, m.awaitingQue = t :: rest →
          onCreated m c = ({ m with awaitingQue := rest }, some t))
      ∧ (m.awaitingQue = [] → ∀ c,
          onCreated m c = ({ m with readyQue := m.readyQue ++ [c] }, none)) := by
  intro m tok
  obtain ⟨cap, pend, rq, aq, dyn, pct, fk⟩ := m
  refine ⟨?_, ?_, ?_, ?_, ?_⟩
  · unfold CaptchaMgr.popCaptcha CaptchaMgr.tryGettingCaptcha
    cases dyn <;> cases aq <;> cases rq <;>
      simp only [List.length_nil, List.length_cons] <;>
      split_ifs <;> simp_all
  · intro c rest haq hrq
    simp only at haq hrq
    subst haq
    subst hrq
    unfold CaptchaMgr.popCaptcha CaptchaMgr.tryGettingCaptcha
    cases dyn <;>
      simp only [List.length_nil, List.length_cons] <;>
      split_ifs <;> simp_all
  · intro hp
    revert hp
    unfold CaptchaMgr.popCaptcha CaptchaMgr.tryGettingCaptcha
    cases dyn <;> cases aq <;> cases rq <;>
      simp only [List.length_nil, List.length_cons] <;>
      split_ifs <;> simp_all
  · intro t rest c haq
    simp only at haq
    subst haq
    rfl
  · intro haq c
    simp only at haq
    subst haq
    rfl

/-- C3 witness: a capacity-3 queue with an empty ready buffer and one
parked consumer (token 7): a further pop parks FIFO behind it, and the
first completed production settles consumer 7, not a later one. -/
theorem popCaptcha_immediate_iff_and_fifo_witness :
    (({ exMgr0 with awaitingQue := [7] } : CaptchaMgr).popCaptcha 9).1 =
        PopResult.parked
    ∧ (({ exMgr0 with awaitingQue := [7] } : CaptchaMgr).popCaptcha 9).2.awaitingQue = [7, 9]
    ∧ onCreated { exMgr0 with awaitingQue := [7] } exCaptcha1 =
        ({ exMgr0 with awaitingQue := [] }, some 7)
    ∧ (exMgr3.popCaptcha 9).1 = PopResult.immediate exCaptcha1 := by
  have h := popCaptcha_immediate_iff_and_fifo { exMgr0 with awaitingQue := [7] } 9
  have h3 := popCaptcha_immediate_iff_and_fifo exMgr3 9
  refine ⟨?_, ?_, ?_, ?_⟩
  · by_contra hne
    have himm : ∃ c, (({ exMgr0 with awaitingQue := [7] } : CaptchaMgr).popCaptcha 9).1 =
        PopResult.immediate c := by
      cases hp : (({ exMgr0 with awaitingQue := [7] } : CaptchaMgr).popCaptcha 9).1 with
      | immediate c => exact ⟨c, rfl⟩
      | parked => exact absurd hp hne
    have := h.1.mp himm
    simp [exMgr0] at this
  · have hp : (({ exMgr0 with awaitingQue := [7] } : CaptchaMgr).popCaptcha 9).1 =
        PopResult.parked := by decide
    simpa [exMgr0] using h.2.2.1 hp
  · simpa [exMgr0] using h.2.2.2.1 7 [] exCaptcha1 rfl
  · exact (h3.2.1 exCaptcha1 [exCaptcha2, exCaptcha3] rfl rfl).1

/-- C4 counterexample: with dynamic capacity on, a pop from a ready
buffer of length 3 drains it to exactly 2 remaining elements, yet the
capacity is not incremented (the code tests the pre-pop length `<= 2`,
not the post-pop length). -/
theorem popCaptcha_drain_to_two_without_increment :
    (exMgr3.popCaptcha 0).1 = PopResult.immediate exCaptcha1
    ∧ (exMgr3.popCaptcha 0).2.readyQue.length = 2
    ∧ exMgr3.capacityDynamic = true
    ∧ exMgr3.capacity = 3
    ∧ (exMgr3.popCaptcha 0).2.capacity = 3 := by
  decide

/-- C4 amended: with dynamic capacity enabled, `popCaptcha` increments
capacity by exactly 1 precisely on the calls whose pre-pop ready-buffer
length is at most 2 (whether or not the call parks), and on no other
call. -/
theorem popCaptcha_capacity_increment_pre_length :
    ∀ (m : CaptchaMgr) (tok : Nat),
      (m.popCaptcha tok).2.capacity =
        if m.readyQue.length ≤ 2 ∧ m.capacityDynamic
        then m.capacity + 1 else m.capacity := by
  intro m tok
  exact pop_capacity_eq m tok

/-- C2: in direct mode a rejected `generator.create()` does not free its
production slot — `_pendingCaptchas` stays incremented because the
decrement sits inside the `try` after `_onCreated` and the `catch` only
logs — while the fork-mode reply handler does decrement on an `{err}`
reply. -/
theorem createCaptcha_direct_failure_leaks_slot :
    (exMgr0.createCaptchaDirect (.error "boom")).pendingCaptchas =
        exMgr0.pendingCaptchas + 1
    ∧ (exMgr0.createCaptchaDirect (.error "boom")).readyQue = []
    ∧ (exMgr0.createCaptchaDirect (.ok exCaptcha1)).pendingCaptchas =
        exMgr0.pendingCaptchas
    ∧ (exMgr0.onWorkerReply (.err "boom")).1.pendingCaptchas =
        exMgr0.pendingCaptchas - 1 := by
  decide

/-- C9 counterexample: the production-request message the queue sends in
fork mode is exactly "provide", not "produce", and the worker ignores a
"produce" message entirely. -/
theorem worker_message_is_not_produce :
    exMgr0.createCaptchaFork.2 = "provide"
    ∧ ("provide" = "produce") = False
    ∧ providerJob "produce" (.ok exCaptcha1) = none
    ∧ providerJob "provide" (.ok exCaptcha1) = some (.result exCaptcha1) := by
  refine ⟨rfl, by simp, rfl, rfl⟩

/-- C9 amended: every fork-mode production request is the exact message
"provide" with no payload; the worker answers it with the produced
challenge object itself on success or an `{err}` object on failure, and
the queue dispatches a success reply to the oldest parked consumer while
decrementing the pending counter. -/
theorem worker_protocol_provide :
    ∀ (m : CaptchaMgr) (gen : Except String Captcha),
      m.createCaptchaFork.2 = "provide"
      ∧ (∀ c, gen = .ok c → providerJob "provide" gen = some (.result c))
      ∧ (∀ e, gen = .error e → providerJob "provide" gen = some (.err e))
      ∧ (∀ c t rest, m.awaitingQue = t :: rest →
          (m.onWorkerReply (.result c)).2 = some t ∧
          (m.onWorkerReply (.result c)).1.pendingCaptchas =
            m.pendingCaptchas - 1) := by
  intro m gen
  refine ⟨rfl, ?_, ?_, ?_⟩
  · intro c h
    subst h
    rfl
  · intro e h
    subst h
    rfl
  · intro c t rest haq
    unfold CaptchaMgr.onWorkerReply onCreated
    rw [haq]
    exact ⟨rfl, rfl⟩

/-- C9 amended witness: the protocol at a concrete queue with one parked
consumer and a successful generation. -/
theorem worker_protocol_provide_witness :
    ({ exMgr0 with awaitingQue := [4] } : CaptchaMgr).createCaptchaFork.2 = "provide"
    ∧ providerJob "provide" (.ok exCaptcha2) = some (.result exCaptcha2)
    ∧ (({ exMgr0 with awaitingQue := [4] } : CaptchaMgr).onWorkerReply
        (.result exCaptcha2)).2 = some 4 := by
  have h := worker_protocol_provide { exMgr0 with awaitingQue := [4] } (.ok exCaptcha2)
  exact ⟨h.1, h.2.1 exCaptcha2 rfl, (h.2.2.2 exCaptcha2 4 [] rfl).1⟩

/-! Auxiliary lemmas about the record engine. -/

/-- Auxiliary: a record that never authenticated cannot be expired. -/
lemma expired_zero (p : AuthPreferences) (now : Int) (r : AuthRecord)
    (h : r.lastAuthTime = 0) : r.expired p now = false := by
  simp [AuthRecord.expired, h]

/-- Auxiliary: lookup in a singleton authr map. -/
lemma getRecord_singleton (id : String) (r : AuthRecord) (lc : Int)
    (p : AuthPreferences) :
    CaptchaAuthr.getRecord ⟨[(id, r)], lc, p⟩ id = some r := by
  simp [CaptchaAuthr.getRecord, List.lookup]

/-- Auxiliary: `Map.set` on a singleton map with the same key replaces
the record. -/
lemma mapSet_singleton (id : String) (r r' : AuthRecord) :
    mapSet [(id, r)] id r' = [(id, r')] := by
  simp [mapSet, List.lookup]

/-- Auxiliary: a filter that keeps an entry preserves its lookup. -/
lemma lookup_filter_keep (id : String) (r : AuthRecord)
    (f : String × AuthRecord → Bool) :
    ∀ (m : List (String × AuthRecord)), List.lookup id m = some r →
      f (id, r) = true → List.lookup id (m.filter f) = some r := by
  intro m
  induction m with
  | nil => intro h _; simp [List.lookup] at h
  | cons e rest ih =>
    intro h hf
    obtain ⟨k, b⟩ := e
    by_cases hk : id = k
    · subst hk
      simp [List.lookup] at h
      subst h
      simp [List.filter, hf, List.lookup]
    · have hbk : (id == k) = false := by simp [hk]
      simp only [List.lookup, hbk] at h
      cases hfk : f (k, b) <;>
        simp only [List.filter_cons, hfk, if_true, if_false,
          List.lookup, hbk] <;>
        exact ih h hf

/-- Auxiliary: `_delOld` keeps the preferences. -/
lemma delOld_prefs (a : CaptchaAuthr) (now : Int) :
    (a.delOld now).prefs = a.prefs := by
  unfold CaptchaAuthr.delOld
  split <;> rfl

/-- Auxiliary: `_delOld` keeps any looked-up record that is not
expired. -/
lemma getRecord_delOld (a : CaptchaAuthr) (now : Int) (id : String)
    (r : AuthRecord) (h : a.getRecord id = some r)
    (hx : r.expired a.prefs now = false) :
    (a.delOld now).getRecord id = some r := by
  unfold CaptchaAuthr.delOld
  split
  · exact lookup_filter_keep id r _ a.map h (by simp [hx])
  · exact h

/-- Auxiliary: `_delOld` on a singleton map holding a never-authenticated
record only refreshes `lastOldCheck`. -/
lemma delOld_singleton (p : AuthPreferences) (id : String) (r : AuthRecord)
    (lc now : Int) (hla : r.lastAuthTime = 0) :
    CaptchaAuthr.delOld ⟨[(id, r)], lc, p⟩ now =
      ⟨[(id, r)], if now - lc > p.authTimeout then now else lc, p⟩ := by
  unfold CaptchaAuthr.delOld
  split
  · rename_i hc
    simp only at hc
    simp [List.filter, expired_zero p now r hla, if_pos hc]
  · rename_i hc
    simp only at hc
    simp [if_neg hc]

/-- Auxiliary: the `try` body short-circuits to "success" on an
authenticated, unexpired record without touching the state. -/
lemma tryAuthBody_authd (a : CaptchaAuthr) (now : Int)
    (prov : Except String Captcha) (id ans : String) (r : AuthRecord)
    (h : a.getRecord id = some r) (hx : r.expired a.prefs now = false)
    (hau : r.authd = true) :
    a.tryAuthBody now prov id ans =
      (a, .ok ⟨⟨"success", none, some (r.getInfo a.prefs now)⟩⟩) := by
  unfold CaptchaAuthr.tryAuthBody
  simp [h, hx, hau, genReturnValue]

/-- C6: authentication is monotonic — a `tryAuth` call on an
authenticated, unexpired record reports "success" and leaves the record
untouched; and the flag is set only by the `correct` setter reaching
`requiredAnswers`, never cleared by the `wrong` setter or the cooldown
drop. -/
theorem authenticated_monotonic :
    (∀ (a : CaptchaAuthr) (now : Int) (prov : Except String Captcha)
        (id ans : String) (r : AuthRecord),
      a.getRecord id = some r → r.authd = true →
      r.expired a.prefs now = false →
        (a.tryAuth now prov id ans).2.captcha.state = "success" ∧
        (a.tryAuth now prov id ans).1.getRecord id = some r)
    ∧ (∀ (p : AuthPreferences) (now : Int) (r : AuthRecord) (v : Rat),
        ((r.setCorrect p now v).authd = true ↔
          (r.authd = true ∨ v ≥ p.requiredAnswers))
        ∧ (r.setWrong p now v).authd = r.authd
        ∧ (r.tryDroppingWrong p now).authd = r.authd) := by
  constructor
  · intro a now prov id ans r h hau hex
    have hp := delOld_prefs a now
    have h1 := getRecord_delOld a now id r h hex
    have hb := tryAuthBody_authd (a.delOld now) now prov id ans r h1
      (by rw [hp]; exact hex) hau
    simp only [CaptchaAuthr.tryAuth, hb]
    exact ⟨trivial, h1⟩
  · intro p now r v
    refine ⟨?_, ?_, ?_⟩
    · simp only [AuthRecord.setCorrect, AuthRecord.authenticate]
      split_ifs <;> simp_all
    · simp only [AuthRecord.setWrong]
      split_ifs <;> rfl
    · simp only [AuthRecord.tryDroppingWrong]
      split_ifs <;> rfl

/-- C6 witness: a concrete authenticated record stays authenticated and
reports "success" on a later call, even with a wrong answer supplied. -/
theorem authenticated_monotonic_witness :
    (exAuthr.tryAuth 10 (.ok exCaptcha2) "u" "zz").2.captcha.state = "success"
    ∧ (exAuthr.tryAuth 10 (.ok exCaptcha2) "u" "zz").1.getRecord "u" =
        some exRecordAuthd
    ∧ ((exRecordAuthd.setWrong defaultAuthPreferences 10 9).authd =
        exRecordAuthd.authd) := by
  refine ⟨?_, ?_, ?_⟩
  · exact (authenticated_monotonic.1 exAuthr 10 (.ok exCaptcha2) "u" "zz"
      exRecordAuthd rfl rfl rfl).1
  · exact (authenticated_monotonic.1 exAuthr 10 (.ok exCaptcha2) "u" "zz"
      exRecordAuthd rfl rfl rfl).2
  · exact (authenticated_monotonic.2 defaultAuthPreferences 10
      exRecordAuthd 9).2.1

/-- C10: while a record is limited the `wrong` setter is a no-op —
the count stays frozen and `lastLimitTime` is written exactly at the
assignment that crosses the limit; while limited only the cooldown drop
changes the count, setting it to exactly 0. -/
theorem wrong_setter_frozen_while_limited :
    ∀ (p : AuthPreferences) (now : Int) (r : AuthRecord) (v : Rat),
      (r.isLimited p = true → r.setWrong p now v = r)
      ∧ (r.isLimited p = false → (r.setWrong p now v).isLimited p = true →
          (r.setWrong p now v).lastLimitTime = now ∧
          (r.setWrong p now v).wrong = v)
      ∧ (r.isLimited p = false → (r.setWrong p now v).isLimited p = false →
          (r.setWrong p now v).lastLimitTime = r.lastLimitTime ∧
          (r.setWrong p now v).wrong = v)
      ∧ (r.isLimited p = true → now - r.lastLimitTime > p.dropWrongAfter →
          (r.tryDroppingWrong p now).wrong = 0)
      ∧ (r.isLimited p = true → ¬(now - r.lastLimitTime > p.dropWrongAfter) →
          r.tryDroppingWrong p now = r) := by
  intro p now r v
  refine ⟨?_, ?_, ?_, ?_, ?_⟩
  · intro h
    unfold AuthRecord.setWrong
    simp [h]
  · intro h hcross
    simp only [AuthRecord.setWrong, h] at hcross ⊢
    by_cases h2 : AuthRecord.isLimited p { r with wrong := v } = true
    · simp only [h2]
      simp
    · simp only [h2] at hcross
      simp at hcross
      exact absurd hcross (by simpa using h2)
  · intro h hno
    simp only [AuthRecord.setWrong, h] at hno ⊢
    by_cases h2 : AuthRecord.isLimited p { r with wrong := v } = true
    · simp only [h2] at hno
      simp at hno
      exact absurd hno (by simpa using h2)
    · simp only [h2]
      simp
  · intro h hd
    unfold AuthRecord.tryDroppingWrong
    simp [h, hd]
  · intro h hd
    unfold AuthRecord.tryDroppingWrong
    simp [h, hd]

/-- C10 witness: a concrete limited record (wrong = 4 > maxWrong = 3):
assigning 100 through the setter is a no-op, and a cooldown drop after
more than `dropWrongAfter` ms resets the count to exactly 0. -/
theorem wrong_setter_frozen_while_limited_witness :
    ((⟨false, 4, 0, 100, 0, 0, none⟩ : AuthRecord).setWrong
        defaultAuthPreferences 200 100 = ⟨false, 4, 0, 100, 0, 0, none⟩)
    ∧ ((⟨false, 4, 0, 100, 0, 0, none⟩ : AuthRecord).tryDroppingWrong
        defaultAuthPreferences 20000).wrong = 0 := by
  constructor
  · exact (wrong_setter_frozen_while_limited defaultAuthPreferences 200
      ⟨false, 4, 0, 100, 0, 0, none⟩ 100).1 (by norm_num [AuthRecord.isLimited, defaultAuthPreferences])
  · exact (wrong_setter_frozen_while_limited defaultAuthPreferences 20000
      ⟨false, 4, 0, 100, 0, 0, none⟩ 100).2.2.2.1
      (by norm_num [AuthRecord.isLimited, defaultAuthPreferences])
      (by norm_num [defaultAuthPreferences])

/-- Auxiliary: on a singleton map with a never-authenticated record and a
real answer, `tryAuth` reduces to the catch-wrapped `_handleAnswer`. -/
lemma tryAuthBody_singleton (p : AuthPreferences) (id ans : String)
    (r : AuthRecord) (lc now : Int) (prov : Except String Captcha)
    (hla : r.lastAuthTime = 0) (hau : r.authd = false)
    (hreg : ans ≠ "regen") (hemp : ans ≠ "") :
    CaptchaAuthr.tryAuthBody ⟨[(id, r)], lc, p⟩ now prov id ans =
      CaptchaAuthr.handleAnswer ⟨[(id, r)], lc, p⟩ now prov id ans := by
  unfold CaptchaAuthr.tryAuthBody CaptchaAuthr.dispatch
  simp [getRecord_singleton, expired_zero p now r hla, hau, hreg, hemp]

/-- Auxiliary: `tryAuth` on such a state is the catch of `_handleAnswer`
run after the `_delOld` bookkeeping. -/
lemma tryAuth_singleton (p : AuthPreferences) (id ans : String)
    (r : AuthRecord) (lc now : Int) (prov : Except String Captcha)
    (hla : r.lastAuthTime = 0) (hau : r.authd = false)
    (hreg : ans ≠ "regen") (hemp : ans ≠ "") :
    CaptchaAuthr.tryAuth ⟨[(id, r)], lc, p⟩ now prov id ans =
      (match CaptchaAuthr.handleAnswer
          ⟨[(id, r)], if now - lc > p.authTimeout then now else lc, p⟩
          now prov id ans with
       | (a2, .ok res) => (a2, res)
       | (a2, .error _) => (a2, ⟨⟨"error", none, none⟩⟩)) := by
  unfold CaptchaAuthr.tryAuth
  rw [delOld_singleton p id r lc now hla,
    tryAuthBody_singleton p id ans r _ now prov hla hau hreg hemp]

/-- Auxiliary: the wrong-answer branch of `_handleAnswer` on a singleton
state — the `wrong` setter adds 1 without crossing the limit, `correct` is
reset when configured, and the result is produced by `genCaptcha`. -/
lemma handleAnswer_singleton_wrong (p : AuthPreferences) (id ans : String)
    (r : AuthRecord) (lc now : Int) (cc : Captcha)
    (prov : Except String Captcha)
    (hreg : ans ≠ "regen")
    (hlim : ¬(r.wrong > p.maxWrong))
    (htl : ¬(now - r.lastDownloadTime > p.answerTimeout))
    (hcc : r.captcha = some cc)
    (hdc : defaultChecker ans cc.answer = false ∨
      now - r.lastDownloadTime < p.tooFast)
    (hnl2 : ¬(r.wrong + 1 > p.maxWrong))
    (hreq : ¬((0 : Rat) ≥ p.requiredAnswers)) :
    CaptchaAuthr.handleAnswer ⟨[(id, r)], lc, p⟩ now prov id ans =
      (match AuthRecord.genCaptcha now prov
          { r with wrong := r.wrong + 1,
                   correct := if p.resetOnWrong then 0 else r.correct } with
       | .ok r3 => (⟨[(id, r3)], lc, p⟩, genReturnValue p now r3 "wrong" true)
       | .error e =>
         (⟨[(id, { r with wrong := r.wrong + 1,
                          correct := if p.resetOnWrong then 0
                                     else r.correct })], lc, p⟩,
          .error e)) := by
  have hlim' : AuthRecord.isLimited p r = false := by
    simp [AuthRecord.isLimited, hlim]
  have htl' : AuthRecord.tookTooLong p now r = false := by
    simp [AuthRecord.tookTooLong, htl]
  have hchk : AuthRecord.checkAnswer r ans =
      .ok (defaultChecker ans cc.answer) := by
    simp [AuthRecord.checkAnswer, hcc]
  have hcond : ¬(defaultChecker ans cc.answer = true ∧
      AuthRecord.wasTooFast p now r = false) := by
    rcases hdc with h | h
    · simp [h]
    · simp [AuthRecord.wasTooFast, h]
  have hsw : r.setWrong p now (r.wrong + 1) = { r with wrong := r.wrong + 1 } := by
    simp only [AuthRecord.setWrong, AuthRecord.isLimited]
    rw [if_neg (by simpa using hlim), if_neg (by simpa using hnl2)]
  have hsc : AuthRecord.setCorrect p now { r with wrong := r.wrong + 1 } 0 =
      { r with wrong := r.wrong + 1, correct := 0 } := by
    simp only [AuthRecord.setCorrect]
    rw [if_neg (by simpa using hreq)]
  have hl2 : ∀ (q : Rat), AuthRecord.isLimited p
      { r with wrong := r.wrong + 1, correct := q } = false := by
    intro q
    simp [AuthRecord.isLimited, hnl2]
  have hl2' : AuthRecord.isLimited p { r with wrong := r.wrong + 1 } = false := by
    simp [AuthRecord.isLimited, hnl2]
  unfold CaptchaAuthr.handleAnswer
  rw [if_neg hreg]
  cases hrw : p.resetOnWrong <;>
    simp [getRecord_singleton, hlim', htl', hchk, hcond, hsw, hsc, hrw,
      hl2, hl2', mapSet_singleton]

/-- Auxiliary: full wrong-answer call on a singleton state with a working
provider: the state is the new record and the result reports "wrong" with
the fresh challenge. -/
lemma tryAuth_singleton_wrong (p : AuthPreferences) (id ans : String)
    (r : AuthRecord) (lc now : Int) (cc cNew : Captcha)
    (hla : r.lastAuthTime = 0) (hau : r.authd = false)
    (hreg : ans ≠ "regen") (hemp : ans ≠ "")
    (hlim : ¬(r.wrong > p.maxWrong))
    (htl : ¬(now - r.lastDownloadTime > p.answerTimeout))
    (hcc : r.captcha = some cc)
    (hdc : defaultChecker ans cc.answer = false ∨
      now - r.lastDownloadTime < p.tooFast)
    (hnl2 : ¬(r.wrong + 1 > p.maxWrong))
    (hreq : ¬((0 : Rat) ≥ p.requiredAnswers)) :
    CaptchaAuthr.tryAuth ⟨[(id, r)], lc, p⟩ now (.ok cNew) id ans =
      (⟨[(id, { r with wrong := r.wrong + 1,
                       correct := if p.resetOnWrong then 0 else r.correct,
                       captcha := some cNew, lastDownloadTime := now })],
        if now - lc > p.authTimeout then now else lc, p⟩,
       ⟨⟨"wrong", some cNew.data,
         some (AuthRecord.getInfo p now
           { r with wrong := r.wrong + 1,
                    correct := if p.resetOnWrong then 0 else r.correct,
                    captcha := some cNew, lastDownloadTime := now })⟩⟩) := by
  rw [tryAuth_singleton p id ans r lc now (.ok cNew) hla hau hreg hemp,
    handleAnswer_singleton_wrong p id ans r _ now cc (.ok cNew) hreg hlim
      htl hcc hdc hnl2 hreq]
  simp [AuthRecord.genCaptcha, genReturnValue, AuthRecord.getChallenge]

/-- Auxiliary: full wrong-answer call on a singleton state whose provider
fails during the reissue: the result is the catch-all "error" object,
while the counter mutations stay in the stored record. -/
lemma tryAuth_singleton_wrong_error (p : AuthPreferences) (id ans : String)
    (r : AuthRecord) (lc now : Int) (cc : Captcha) (e : String)
    (hla : r.lastAuthTime = 0) (hau : r.authd = false)
    (hreg : ans ≠ "regen") (hemp : ans ≠ "")
    (hlim : ¬(r.wrong > p.maxWrong))
    (htl : ¬(now - r.lastDownloadTime > p.answerTimeout))
    (hcc : r.captcha = some cc)
    (hdc : defaultChecker ans cc.answer = false ∨
      now - r.lastDownloadTime < p.tooFast)
    (hnl2 : ¬(r.wrong + 1 > p.maxWrong))
    (hreq : ¬((0 : Rat) ≥ p.requiredAnswers)) :
    CaptchaAuthr.tryAuth ⟨[(id, r)], lc, p⟩ now (.error e) id ans =
      (⟨[(id, { r with wrong := r.wrong + 1,
                       correct := if p.resetOnWrong then 0 else r.correct })],
        if now - lc > p.authTimeout then now else lc, p⟩,
       ⟨⟨"error", none, none⟩⟩) := by
  rw [tryAuth_singleton p id ans r lc now (.error e) hla hau hreg hemp,
    handleAnswer_singleton_wrong p id ans r _ now cc (.error e) hreg hlim
      htl hcc hdc hnl2 hreq]
  simp [AuthRecord.genCaptcha]

/-- Auxiliary: the wrong-answer branch when the increment crosses the
limit: `lastLimitTime` is stamped, no challenge is generated, and the
result reports "limit". -/
lemma handleAnswer_singleton_limit (p : AuthPreferences) (id ans : String)
    (r : AuthRecord) (lc now : Int) (cc : Captcha)
    (prov : Except String Captcha)
    (hreg : ans ≠ "regen")
    (hlim : ¬(r.wrong > p.maxWrong))
    (htl : ¬(now - r.lastDownloadTime > p.answerTimeout))
    (hcc : r.captcha = some cc)
    (hdc : defaultChecker ans cc.answer = false ∨
      now - r.lastDownloadTime < p.tooFast)
    (hcross : r.wrong + 1 > p.maxWrong)
    (hreq : ¬((0 : Rat) ≥ p.requiredAnswers)) :
    CaptchaAuthr.handleAnswer ⟨[(id, r)], lc, p⟩ now prov id ans =
      (⟨[(id, { r with wrong := r.wrong + 1, lastLimitTime := now,
                       correct := if p.resetOnWrong then 0
                                  else r.correct })], lc, p⟩,
       .ok ⟨⟨"limit", none,
         some (AuthRecord.getInfo p now
           { r with wrong := r.wrong + 1, lastLimitTime := now,
                    correct := if p.resetOnWrong then 0
                               else r.correct })⟩⟩) := by
  have hlim' : AuthRecord.isLimited p r = false := by
    simp [AuthRecord.isLimited, hlim]
  have htl' : AuthRecord.tookTooLong p now r = false := by
    simp [AuthRecord.tookTooLong, htl]
  have hchk : AuthRecord.checkAnswer r ans =
      .ok (defaultChecker ans cc.answer) := by
    simp [AuthRecord.checkAnswer, hcc]
  have hcond : ¬(defaultChecker ans cc.answer = true ∧
      AuthRecord.wasTooFast p now r = false) := by
    rcases hdc with h | h
    · simp [h]
    · simp [AuthRecord.wasTooFast, h]
  have hsw : r.setWrong p now (r.wrong + 1) =
      { r with wrong := r.wrong + 1, lastLimitTime := now } := by
    simp only [AuthRecord.setWrong, AuthRecord.isLimited]
    rw [if_neg (by simpa using hlim), if_pos (by simpa using hcross)]
  have hsc : AuthRecord.setCorrect p now
      { r with wrong := r.wrong + 1, lastLimitTime := now } 0 =
      { r with wrong := r.wrong + 1, lastLimitTime := now,
               correct := 0 } := by
    simp only [AuthRecord.setCorrect]
    rw [if_neg (by simpa using hreq)]
  have hl2 : ∀ (q : Rat) (t : Int), AuthRecord.isLimited p
      { r with wrong := r.wrong + 1, correct := q,
               lastLimitTime := t } = true := by
    intro q t
    simp [AuthRecord.isLimited, hcross]
  have hl2' : ∀ (t : Int), AuthRecord.isLimited p
      { r with wrong := r.wrong + 1, lastLimitTime := t } = true := by
    intro t
    simp [AuthRecord.isLimited, hcross]
  unfold CaptchaAuthr.handleAnswer
  rw [if_neg hreg]
  cases hrw : p.resetOnWrong <;>
    simp [getRecord_singleton, hlim', htl', hchk, hcond, hsw, hsc, hrw,
      hl2, hl2', mapSet_singleton, genReturnValue]

/-- Auxiliary: full wrong-answer call whose increment crosses the limit:
the stored record is limited with `lastLimitTime = now` and the call
reports "limit" (the provider is never consulted). -/
lemma tryAuth_singleton_limit (p : AuthPreferences) (id ans : String)
    (r : AuthRecord) (lc now : Int) (cc : Captcha)
    (prov : Except String Captcha)
    (hla : r.lastAuthTime = 0) (hau : r.authd = false)
    (hreg : ans ≠ "regen") (hemp : ans ≠ "")
    (hlim : ¬(r.wrong > p.maxWrong))
    (htl : ¬(now - r.lastDownloadTime > p.answerTimeout))
    (hcc : r.captcha = some cc)
    (hdc : defaultChecker ans cc.answer = false ∨
      now - r.lastDownloadTime < p.tooFast)
    (hcross : r.wrong + 1 > p.maxWrong)
    (hreq : ¬((0 : Rat) ≥ p.requiredAnswers)) :
    CaptchaAuthr.tryAuth ⟨[(id, r)], lc, p⟩ now prov id ans =
      (⟨[(id, { r with wrong := r.wrong + 1, lastLimitTime := now,
                       correct := if p.resetOnWrong then 0
                                  else r.correct })],
        if now - lc > p.authTimeout then now else lc, p⟩,
       ⟨⟨"limit", none,
         some (AuthRecord.getInfo p now
           { r with wrong := r.wrong + 1, lastLimitTime := now,
                    correct := if p.resetOnWrong then 0
                               else r.correct })⟩⟩) := by
  rw [tryAuth_singleton p id ans r lc now prov hla hau hreg hemp,
    handleAnswer_singleton_limit p id ans r _ now cc prov hreg hlim htl
      hcc hdc hcross hreq]

/-- Auxiliary: a call on a limited record past the cooldown: the drop
resets the count to 0, a fresh challenge is issued and the call reports
"new". -/
lemma handleAnswer_singleton_drop (p : AuthPreferences) (id ans : String)
    (r : AuthRecord) (lc now : Int) (prov : Except String Captcha)
    (hreg : ans ≠ "regen")
    (hl : r.wrong > p.maxWrong)
    (hdrop : now - r.lastLimitTime > p.dropWrongAfter)
    (h0 : ¬((0 : Rat) > p.maxWrong)) :
    CaptchaAuthr.handleAnswer ⟨[(id, r)], lc, p⟩ now prov id ans =
      (match AuthRecord.genCaptcha now prov
          { r with wrong := 0, lastDownloadTime := now } with
       | .ok r2 => (⟨[(id, r2)], lc, p⟩, genReturnValue p now r2 "new" true)
       | .error e =>
         (⟨[(id, { r with wrong := 0, lastDownloadTime := now })], lc, p⟩,
          .error e)) := by
  have hlim' : AuthRecord.isLimited p r = true := by
    simp [AuthRecord.isLimited, hl]
  have hdropRec : r.tryDroppingWrong p now =
      { r with wrong := 0, lastDownloadTime := now } := by
    simp [AuthRecord.tryDroppingWrong, AuthRecord.isLimited, hl, hdrop]
  have h0' : AuthRecord.isLimited p
      { r with wrong := 0, lastDownloadTime := now } = false := by
    simp [AuthRecord.isLimited, h0]
  unfold CaptchaAuthr.handleAnswer
  rw [if_neg hreg]
  simp [getRecord_singleton, hlim', hdropRec, h0', mapSet_singleton]

/-- Auxiliary: full call on a limited record past the cooldown with a
working provider: the stored count is exactly 0 and the call reports
"new" with the fresh challenge. -/
lemma tryAuth_singleton_drop (p : AuthPreferences) (id ans : String)
    (r : AuthRecord) (lc now : Int) (cNew : Captcha)
    (hla : r.lastAuthTime = 0) (hau : r.authd = false)
    (hreg : ans ≠ "regen") (hemp : ans ≠ "")
    (hl : r.wrong > p.maxWrong)
    (hdrop : now - r.lastLimitTime > p.dropWrongAfter)
    (h0 : ¬((0 : Rat) > p.maxWrong)) :
    CaptchaAuthr.tryAuth ⟨[(id, r)], lc, p⟩ now (.ok cNew) id ans =
      (⟨[(id, { r with wrong := 0, lastDownloadTime := now,
                       captcha := some cNew })],
        if now - lc > p.authTimeout then now else lc, p⟩,
       ⟨⟨"new", some cNew.data,
         some (AuthRecord.getInfo p now
           { r with wrong := 0, lastDownloadTime := now,
                    captcha := some cNew })⟩⟩) := by
  rw [tryAuth_singleton p id ans r lc now (.ok cNew) hla hau hreg hemp,
    handleAnswer_singleton_drop p id ans r _ now (.ok cNew) hreg hl
      hdrop h0]
  simp [AuthRecord.genCaptcha, genReturnValue, AuthRecord.getChallenge]

/-- C1: a provider failure while reissuing a challenge inside the policy
cascade is caught at the `tryAuth` boundary: the call returns the plain
`{state: "error"}` object (the model's `tryAuth` is total, so nothing ever
propagates to the caller), while the wrong-count increment and the
`correct` reset already applied to the stored record stay in effect — no
rollback. -/
theorem tryAuth_catches_provider_failure :
    (∀ (a : CaptchaAuthr) (now : Int) (prov : Except String Captcha)
        (id ans e : String) (a2 : CaptchaAuthr),
      (a.delOld now).tryAuthBody now prov id ans = (a2, .error e) →
      a.tryAuth now prov id ans = (a2, ⟨⟨"error", none, none⟩⟩))
    ∧ ∀ (p : AuthPreferences) (id ans : String) (r : AuthRecord)
      (lc now : Int) (cc : Captcha) (e : String),
      r.lastAuthTime = 0 → r.authd = false →
      ans ≠ "regen" → ans ≠ "" →
      ¬(r.wrong > p.maxWrong) →
      ¬(now - r.lastDownloadTime > p.answerTimeout) →
      r.captcha = some cc →
      (defaultChecker ans cc.answer = false ∨
        now - r.lastDownloadTime < p.tooFast) →
      ¬(r.wrong + 1 > p.maxWrong) →
      ¬((0 : Rat) ≥ p.requiredAnswers) →
      (CaptchaAuthr.tryAuth ⟨[(id, r)], lc, p⟩ now (.error e) id
          ans).2.captcha.state = "error"
      ∧ (CaptchaAuthr.tryAuth ⟨[(id, r)], lc, p⟩ now (.error e) id
          ans).1.getRecord id =
        some { r with wrong := r.wrong + 1,
                      correct := if p.resetOnWrong then 0
                                 else r.correct } := by
  constructor
  · intro a now prov id ans e a2 h
    unfold CaptchaAuthr.tryAuth
    rw [h]
  · intro p id ans r lc now cc e hla hau hreg hemp hlim htl hcc hdc hnl2
      hreq
    rw [tryAuth_singleton_wrong_error p id ans r lc now cc e hla hau hreg
      hemp hlim htl hcc hdc hnl2 hreq]
    exact ⟨rfl, getRecord_singleton id _ _ p⟩

/-- C1 witness: a wrong answer at a fresh record with a failing provider:
the call resolves to "error" and the stored record keeps the incremented
wrong count. -/
theorem tryAuth_catches_provider_failure_witness :
    (CaptchaAuthr.tryAuth ⟨[("u", exRecordFresh)], 0,
        defaultAuthPreferences⟩ 2000 (.error "boom") "u"
        "XY").2.captcha.state = "error"
    ∧ (CaptchaAuthr.tryAuth ⟨[("u", exRecordFresh)], 0,
        defaultAuthPreferences⟩ 2000 (.error "boom") "u"
        "XY").1.getRecord "u" =
      some { exRecordFresh with
              wrong := exRecordFresh.wrong + 1,
              correct := if defaultAuthPreferences.resetOnWrong then 0
                         else exRecordFresh.correct } := by
  exact tryAuth_catches_provider_failure.2 defaultAuthPreferences "u" "XY"
    exRecordFresh 0 2000 exCaptcha1 "boom" rfl rfl (by decide) (by decide)
    (by norm_num [exRecordFresh, defaultAuthPreferences])
    (by norm_num [exRecordFresh, defaultAuthPreferences])
    rfl
    (Or.inl (by decide))
    (by norm_num [exRecordFresh, defaultAuthPreferences])
    (by norm_num [defaultAuthPreferences])

/-- C8: an answer submitted less than `tooFast` ms after issuance takes
the wrong branch regardless of its textual correctness: the wrong count
goes up by 1, `correct` is zeroed when `resetOnWrong` is set, and the
reported state is "wrong" — or "limit" when the increment crosses
`maxWrong` — never "success" or "more". -/
theorem too_fast_answer_counts_wrong :
    ∀ (p : AuthPreferences) (id ans : String) (r : AuthRecord)
      (lc now : Int) (cc cNew : Captcha),
      r.lastAuthTime = 0 → r.authd = false →
      ans ≠ "regen" → ans ≠ "" →
      ¬(r.wrong > p.maxWrong) →
      ¬(now - r.lastDownloadTime > p.answerTimeout) →
      r.captcha = some cc →
      now - r.lastDownloadTime < p.tooFast →
      ¬((0 : Rat) ≥ p.requiredAnswers) →
      (∃ r', (CaptchaAuthr.tryAuth ⟨[(id, r)], lc, p⟩ now (.ok cNew) id
          ans).1.getRecord id = some r'
        ∧ r'.wrong = r.wrong + 1
        ∧ r'.correct = (if p.resetOnWrong then 0 else r.correct))
      ∧ (CaptchaAuthr.tryAuth ⟨[(id, r)], lc, p⟩ now (.ok cNew) id
          ans).2.captcha.state =
        (if r.wrong + 1 > p.maxWrong then "limit" else "wrong")
      ∧ (CaptchaAuthr.tryAuth ⟨[(id, r)], lc, p⟩ now (.ok cNew) id
          ans).2.captcha.state ≠ "success"
      ∧ (CaptchaAuthr.tryAuth ⟨[(id, r)], lc, p⟩ now (.ok cNew) id
          ans).2.captcha.state ≠ "more" := by
  intro p id ans r lc now cc cNew hla hau hreg hemp hlim htl hcc hfast hreq
  by_cases hcross : r.wrong + 1 > p.maxWrong
  · rw [tryAuth_singleton_limit p id ans r lc now cc (.ok cNew) hla hau
      hreg hemp hlim htl hcc (Or.inr hfast) hcross hreq]
    refine ⟨⟨_, getRecord_singleton id _ _ p, rfl, rfl⟩, ?_, ?_, ?_⟩
    · rw [if_pos hcross]
    · simp
    · simp
  · rw [tryAuth_singleton_wrong p id ans r lc now cc cNew hla hau hreg
      hemp hlim htl hcc (Or.inr hfast) hcross hreq]
    refine ⟨⟨_, getRecord_singleton id _ _ p, rfl, rfl⟩, ?_, ?_, ?_⟩
    · rw [if_neg hcross]
    · simp
    · simp

/-- C8 witness: a textually correct answer ("ab" for "AB") arriving only
500 ms after issuance is treated as wrong under the defaults. -/
theorem too_fast_answer_counts_wrong_witness :
    (∃ r', (CaptchaAuthr.tryAuth ⟨[("u", exRecordFresh)], 0,
        defaultAuthPreferences⟩ 500 (.ok exCaptcha2) "u"
        "ab").1.getRecord "u" = some r'
      ∧ r'.wrong = exRecordFresh.wrong + 1
      ∧ r'.correct = (if defaultAuthPreferences.resetOnWrong then 0
                      else exRecordFresh.correct))
    ∧ (CaptchaAuthr.tryAuth ⟨[("u", exRecordFresh)], 0,
        defaultAuthPreferences⟩ 500 (.ok exCaptcha2) "u"
        "ab").2.captcha.state =
      (if exRecordFresh.wrong + 1 > defaultAuthPreferences.maxWrong
       then "limit" else "wrong")
    ∧ defaultChecker "ab" exCaptcha1.answer = true := by
  have h := too_fast_answer_counts_wrong defaultAuthPreferences "u" "ab"
    exRecordFresh 0 500 exCaptcha1 exCaptcha2 rfl rfl (by decide)
    (by decide)
    (by norm_num [exRecordFresh, defaultAuthPreferences])
    (by norm_num [exRecordFresh, defaultAuthPreferences])
    rfl
    (by norm_num [exRecordFresh, defaultAuthPreferences])
    (by norm_num [defaultAuthPreferences])
  exact ⟨h.1, h.2.1, by decide⟩

/-- C7: under the default preferences (`maxWrong = 3`), four consecutive
wrong answers on a fresh record yield "wrong", "wrong", "wrong", "limit";
a fifth call more than `dropWrongAfter` ms after the limit was entered
resets the wrong count to exactly 0 and reports "new" with the freshly
issued challenge. -/
theorem scenario_four_wrong_then_cooldown_reset :
    ∀ (id ans1 ans2 ans3 ans4 ans5 : String) (c0 c1 c2 c3 c5 : Captcha)
      (t0 t1 t2 t3 t4 t5 lc : Int) (prov4 : Except String Captcha),
      ans1 ≠ "regen" → ans1 ≠ "" →
      ans2 ≠ "regen" → ans2 ≠ "" →
      ans3 ≠ "regen" → ans3 ≠ "" →
      ans4 ≠ "regen" → ans4 ≠ "" →
      ans5 ≠ "regen" → ans5 ≠ "" →
      defaultChecker ans1 c0.answer = false →
      defaultChecker ans2 c1.answer = false →
      defaultChecker ans3 c2.answer = false →
      defaultChecker ans4 c3.answer = false →
      t1 - t0 ≤ 60000 → t2 - t1 ≤ 60000 → t3 - t2 ≤ 60000 →
      t4 - t3 ≤ 60000 → t5 - t4 > 10000 →
      (runAuthCalls ⟨[(id, ⟨false, 0, 0, 0, t0, 0, some c0⟩)], lc,
          defaultAuthPreferences⟩
        [(t1, .ok c1, id, ans1), (t2, .ok c2, id, ans2),
         (t3, .ok c3, id, ans3), (t4, prov4, id, ans4),
         (t5, .ok c5, id, ans5)]).2.map (fun v => v.captcha.state) =
        ["wrong", "wrong", "wrong", "limit", "new"]
      ∧ (runAuthCalls ⟨[(id, ⟨false, 0, 0, 0, t0, 0, some c0⟩)], lc,
          defaultAuthPreferences⟩
        [(t1, .ok c1, id, ans1), (t2, .ok c2, id, ans2),
         (t3, .ok c3, id, ans3), (t4, prov4, id, ans4),
         (t5, .ok c5, id, ans5)]).1.getRecord id =
        some ⟨false, 0, 0, t4, t5, 0, some c5⟩
      ∧ ((runAuthCalls ⟨[(id, ⟨false, 0, 0, 0, t0, 0, some c0⟩)], lc,
          defaultAuthPreferences⟩
        [(t1, .ok c1, id, ans1), (t2, .ok c2, id, ans2),
         (t3, .ok c3, id, ans3), (t4, prov4, id, ans4),
         (t5, .ok c5, id, ans5)]).2.map
          (fun v => v.captcha.challenge)).getLast? =
        some (some c5.data) := by
  intro id ans1 ans2 ans3 ans4 ans5 c0 c1 c2 c3 c5 t0 t1 t2 t3 t4 t5 lc
    prov4 hr1 he1 hr2 he2 hr3 he3 hr4 he4 hr5 he5 hc1 hc2 hc3 hc4 ht1 ht2
    ht3 ht4 ht5
  have e1 : ∀ lcx : Int,
      CaptchaAuthr.tryAuth ⟨[(id, ⟨false, 0, 0, 0, t0, 0, some c0⟩)], lcx,
        defaultAuthPreferences⟩ t1 (.ok c1) id ans1 =
      (⟨[(id, ⟨false, 1, 0, 0, t1, 0, some c1⟩)],
        if t1 - lcx > 1800000 then t1 else lcx, defaultAuthPreferences⟩,
       ⟨⟨"wrong", some c1.data,
         some (AuthRecord.getInfo defaultAuthPreferences t1
           ⟨false, 1, 0, 0, t1, 0, some c1⟩)⟩⟩) := by
    intro lcx
    rw [tryAuth_singleton_wrong defaultAuthPreferences id ans1
      ⟨false, 0, 0, 0, t0, 0, some c0⟩ lcx t1 c0 c1 rfl rfl hr1 he1
      (by norm_num [defaultAuthPreferences])
      (by show ¬(t1 - t0 > (60000 : Int)); omega)
      rfl (Or.inl hc1)
      (by norm_num [defaultAuthPreferences])
      (by norm_num [defaultAuthPreferences])]
    norm_num [defaultAuthPreferences]
  have e2 : ∀ lcx : Int,
      CaptchaAuthr.tryAuth ⟨[(id, ⟨false, 1, 0, 0, t1, 0, some c1⟩)], lcx,
        defaultAuthPreferences⟩ t2 (.ok c2) id ans2 =
      (⟨[(id, ⟨false, 2, 0, 0, t2, 0, some c2⟩)],
        if t2 - lcx > 1800000 then t2 else lcx, defaultAuthPreferences⟩,
       ⟨⟨"wrong", some c2.data,
         some (AuthRecord.getInfo defaultAuthPreferences t2
           ⟨false, 2, 0, 0, t2, 0, some c2⟩)⟩⟩) := by
    intro lcx
    rw [tryAuth_singleton_wrong defaultAuthPreferences id ans2
      ⟨false, 1, 0, 0, t1, 0, some c1⟩ lcx t2 c1 c2 rfl rfl hr2 he2
      (by norm_num [defaultAuthPreferences])
      (by show ¬(t2 - t1 > (60000 : Int)); omega)
      rfl (Or.inl hc2)
      (by norm_num [defaultAuthPreferences])
      (by norm_num [defaultAuthPreferences])]
    norm_num [defaultAuthPreferences]
  have e3 : ∀ lcx : Int,
      CaptchaAuthr.tryAuth ⟨[(id, ⟨false, 2, 0, 0, t2, 0, some c2⟩)], lcx,
        defaultAuthPreferences⟩ t3 (.ok c3) id ans3 =
      (⟨[(id, ⟨false, 3, 0, 0, t3, 0, some c3⟩)],
        if t3 - lcx > 1800000 then t3 else lcx, defaultAuthPreferences⟩,
       ⟨⟨"wrong", some c3.data,
         some (AuthRecord.getInfo defaultAuthPreferences t3
           ⟨false, 3, 0, 0, t3, 0, some c3⟩)⟩⟩) := by
    intro lcx
    rw [tryAuth_singleton_wrong defaultAuthPreferences id ans3
      ⟨false, 2, 0, 0, t2, 0, some c2⟩ lcx t3 c2 c3 rfl rfl hr3 he3
      (by norm_num [defaultAuthPreferences])
      (by show ¬(t3 - t2 > (60000 : Int)); omega)
      rfl (Or.inl hc3)
      (by norm_num [defaultAuthPreferences])
      (by norm_num [defaultAuthPreferences])]
    norm_num [defaultAuthPreferences]
  have e4 : ∀ lcx : Int,
      CaptchaAuthr.tryAuth ⟨[(id, ⟨false, 3, 0, 0, t3, 0, some c3⟩)], lcx,
        defaultAuthPreferences⟩ t4 prov4 id ans4 =
      (⟨[(id, ⟨false, 4, 0, t4, t3, 0, some c3⟩)],
        if t4 - lcx > 1800000 then t4 else lcx, defaultAuthPreferences⟩,
       ⟨⟨"limit", none,
         some (AuthRecord.getInfo defaultAuthPreferences t4
           ⟨false, 4, 0, t4, t3, 0, some c3⟩)⟩⟩) := by
    intro lcx
    rw [tryAuth_singleton_limit defaultAuthPreferences id ans4
      ⟨false, 3, 0, 0, t3, 0, some c3⟩ lcx t4 c3 prov4 rfl rfl hr4 he4
      (by norm_num [defaultAuthPreferences])
      (by show ¬(t4 - t3 > (60000 : Int)); omega)
      rfl (Or.inl hc4)
      (by norm_num [defaultAuthPreferences])
      (by norm_num [defaultAuthPreferences])]
    norm_num [defaultAuthPreferences]
  have e5 : ∀ lcx : Int,
      CaptchaAuthr.tryAuth ⟨[(id, ⟨false, 4, 0, t4, t3, 0, some c3⟩)], lcx,
        defaultAuthPreferences⟩ t5 (.ok c5) id ans5 =
      (⟨[(id, ⟨false, 0, 0, t4, t5, 0, some c5⟩)],
        if t5 - lcx > 1800000 then t5 else lcx, defaultAuthPreferences⟩,
       ⟨⟨"new", some c5.data,
         some (AuthRecord.getInfo defaultAuthPreferences t5
           ⟨false, 0, 0, t4, t5, 0, some c5⟩)⟩⟩) := by
    intro lcx
    rw [tryAuth_singleton_drop defaultAuthPreferences id ans5
      ⟨false, 4, 0, t4, t3, 0, some c3⟩ lcx t5 c5 rfl rfl hr5 he5
      (by norm_num [defaultAuthPreferences])
      (by show t5 - t4 > (10000 : Int); omega)
      (by norm_num [defaultAuthPreferences])]
    norm_num [defaultAuthPreferences]
  refine ⟨?_, ?_, ?_⟩ <;>
    simp only [runAuthCalls, e1, e2, e3, e4, e5] <;>
    simp [getRecord_singleton, List.getLast?]

/-- C7 witness: the concrete trace — wrong answer "XY" at t = 1500, 3000,
4500, 6000 and a fifth call at t = 16001 (10001 ms after the limit was
entered). -/
theorem scenario_four_wrong_then_cooldown_reset_witness :
    (runAuthCalls ⟨[("u", ⟨false, 0, 0, 0, 0, 0, some exCaptcha1⟩)], 0,
        defaultAuthPreferences⟩
      [(1500, .ok exCaptcha2, "u", "XY"), (3000, .ok exCaptcha3, "u", "XY"),
       (4500, .ok exCaptcha1, "u", "XY"), (6000, .ok exCaptcha3, "u", "XY"),
       (16001, .ok exCaptcha2, "u", "XY")]).2.map (fun v => v.captcha.state) =
      ["wrong", "wrong", "wrong", "limit", "new"]
    ∧ (runAuthCalls ⟨[("u", ⟨false, 0, 0, 0, 0, 0, some exCaptcha1⟩)], 0,
        defaultAuthPreferences⟩
      [(1500, .ok exCaptcha2, "u", "XY"), (3000, .ok exCaptcha3, "u", "XY"),
       (4500, .ok exCaptcha1, "u", "XY"), (6000, .ok exCaptcha3, "u", "XY"),
       (16001, .ok exCaptcha2, "u", "XY")]).1.getRecord "u" =
      some ⟨false, 0, 0, 6000, 16001, 0, some exCaptcha2⟩ := by
  have h := scenario_four_wrong_then_cooldown_reset "u" "XY" "XY" "XY" "XY"
    "XY" exCaptcha1 exCaptcha2 exCaptcha3 exCaptcha1 exCaptcha2
    0 1500 3000 4500 6000 16001 0 (.ok exCaptcha3)
    (by decide) (by decide) (by decide) (by decide) (by decide) (by decide)
    (by decide) (by decide) (by decide) (by decide)
    (by decide) (by decide) (by decide) (by decide)
    (by decide) (by decide) (by decide) (by decide) (by decide)
  exact ⟨h.1, h.2.1⟩

end IQC
